import Mathlib

set_option autoImplicit false

/-!
Shallow embedding of `telos-mcp/telos_mcp_server.py`.

The server has two behaviours with design content: `load_telos_context`
(a three-tier fallback chain: GitHub fetch, local file, constant string)
and the `/mcp` dispatcher `mcp_endpoint` (three branches on the request
method).  External effects — the environment, the outcome of the single
outbound HTTP request together with its JSON/base64/UTF-8 decode pipeline,
and the outcome of reading the fixed local file — are modelled by an
explicit `World` value passed to the embedded functions.  A Python
exception that escapes a function is modelled as `Except.error ()`.
-/

/-- Model of a JSON value as produced by parsing the request body
(pydantic gives Python `None`/`bool`/`int`/`str`/`list`/`dict`).
Numbers are modelled as integers. -/
inductive Json where
  | null
  | bool (b : Bool)
  | num (n : Int)
  | str (s : String)
  | arr (elems : List Json)
  | obj (fields : List (String × Json))
  deriving Repr

mutual

/-- Decidable equality on `Json`, written by hand because the automatic
derivation does not handle nested inductives. -/
def Json.decEq : (a b : Json) → Decidable (a = b)
  | .null, .null => isTrue rfl
  | .bool a, .bool b =>
    if h : a = b then isTrue (congrArg Json.bool h)
    else isFalse (fun he => h (Json.bool.inj he))
  | .num a, .num b =>
    if h : a = b then isTrue (congrArg Json.num h)
    else isFalse (fun he => h (Json.num.inj he))
  | .str a, .str b =>
    if h : a = b then isTrue (congrArg Json.str h)
    else isFalse (fun he => h (Json.str.inj he))
  | .arr xs, .arr ys =>
    match Json.decEqList xs ys with
    | isTrue h => isTrue (congrArg Json.arr h)
    | isFalse h => isFalse (fun he => h (Json.arr.inj he))
  | .obj fs, .obj gs =>
    match Json.decEqFields fs gs with
    | isTrue h => isTrue (congrArg Json.obj h)
    | isFalse h => isFalse (fun he => h (Json.obj.inj he))
  | .null, .bool _ => isFalse (fun h => Json.noConfusion h)
  | .null, .num _ => isFalse (fun h => Json.noConfusion h)
  | .null, .str _ => isFalse (fun h => Json.noConfusion h)
  | .null, .arr _ => isFalse (fun h => Json.noConfusion h)
  | .null, .obj _ => isFalse (fun h => Json.noConfusion h)
  | .bool _, .null => isFalse (fun h => Json.noConfusion h)
  | .bool _, .num _ => isFalse (fun h => Json.noConfusion h)
  | .bool _, .str _ => isFalse (fun h => Json.noConfusion h)
  | .bool _, .arr _ => isFalse (fun h => Json.noConfusion h)
  | .bool _, .obj _ => isFalse (fun h => Json.noConfusion h)
  | .num _, .null => isFalse (fun h => Json.noConfusion h)
  | .num _, .bool _ => isFalse (fun h => Json.noConfusion h)
  | .num _, .str _ => isFalse (fun h => Json.noConfusion h)
  | .num _, .arr _ => isFalse (fun h => Json.noConfusion h)
  | .num _, .obj _ => isFalse (fun h => Json.noConfusion h)
  | .str _, .null => isFalse (fun h => Json.noConfusion h)
  | .str _, .bool _ => isFalse (fun h => Json.noConfusion h)
  | .str _, .num _ => isFalse (fun h => Json.noConfusion h)
  | .str _, .arr _ => isFalse (fun h => Json.noConfusion h)
  | .str _, .obj _ => isFalse (fun h => Json.noConfusion h)
  | .arr _, .null => isFalse (fun h => Json.noConfusion h)
  | .arr _, .bool _ => isFalse (fun h => Json.noConfusion h)
  | .arr _, .num _ => isFalse (fun h => Json.noConfusion h)
  | .arr _, .str _ => isFalse (fun h => Json.noConfusion h)
  | .arr _, .obj _ => isFalse (fun h => Json.noConfusion h)
  | .obj _, .null => isFalse (fun h => Json.noConfusion h)
  | .obj _, .bool _ => isFalse (fun h => Json.noConfusion h)
  | .obj _, .num _ => isFalse (fun h => Json.noConfusion h)
  | .obj _, .str _ => isFalse (fun h => Json.noConfusion h)
  | .obj _, .arr _ => isFalse (fun h => Json.noConfusion h)

/-- Decidable equality on lists of `Json` values. -/
def Json.decEqList : (xs ys : List Json) → Decidable (xs = ys)
  | [], [] => isTrue rfl
  | [], _ :: _ => isFalse (fun h => List.noConfusion h)
  | _ :: _, [] => isFalse (fun h => List.noConfusion h)
  | x :: xs, y :: ys =>
    match Json.decEq x y with
    | isFalse h => isFalse (fun he => by cases he; exact h rfl)
    | isTrue h1 =>
      match Json.decEqList xs ys with
      | isTrue h2 => isTrue (h1 ▸ h2 ▸ rfl)
      | isFalse h2 => isFalse (fun he => by cases he; exact h2 rfl)

/-- Decidable equality on `Json` object field lists. -/
def Json.decEqFields : (fs gs : List (String × Json)) → Decidable (fs = gs)
  | [], [] => isTrue rfl
  | [], _ :: _ => isFalse (fun h => List.noConfusion h)
  | _ :: _, [] => isFalse (fun h => List.noConfusion h)
  | (k, v) :: fs, (l, w) :: gs =>
    if hk : k = l then
      match Json.decEq v w with
      | isFalse h => isFalse (fun he => by cases he; exact h rfl)
      | isTrue hv =>
        match Json.decEqFields fs gs with
        | isTrue ht => isTrue (hk ▸ hv ▸ ht ▸ rfl)
        | isFalse ht => isFalse (fun he => by cases he; exact ht rfl)
    else isFalse (fun he => by cases he; exact hk rfl)

end

instance : DecidableEq Json := Json.decEq

/-- Single-quote character, written via its code point. -/
def singleQuote : Char := Char.ofNat 39

/-- Double-quote character, written via its code point. -/
def doubleQuote : Char := Char.ofNat 34

/-- Escaping of one character inside a Python string repr delimited by
`quote`: backslash, the delimiter, and the common control characters are
escaped.  (Python additionally escapes other non-printable characters as
hex sequences; those are kept verbatim in this model.) -/
def pyEscapeChar (quote : Char) (c : Char) : List Char :=
  if c = '\\' then ['\\', '\\']
  else if c = quote then ['\\', quote]
  else if c = '\n' then ['\\', 'n']
  else if c = '\t' then ['\\', 't']
  else if c = '\r' then ['\\', 'r']
  else [c]

/-- Escape every character of `s` for a Python repr delimited by `quote`. -/
def pyEscape (quote : Char) (s : String) : String :=
  String.mk (s.data.foldr (fun c acc => pyEscapeChar quote c ++ acc) [])

/-- Model of Python `repr` on a `str`: single quotes by default, double
quotes when the string contains a single quote but no double quote. -/
def pyReprString (s : String) : String :=
  if s.contains singleQuote && !(s.contains doubleQuote) then
    String.singleton doubleQuote ++ pyEscape doubleQuote s ++ String.singleton doubleQuote
  else
    String.singleton singleQuote ++ pyEscape singleQuote s ++ String.singleton singleQuote

mutual

/-- Model of Python `repr` on a JSON-derived value (`None`, `True`,
`False`, decimal integers, quoted strings, lists and dicts). -/
def pyRepr : Json → String
  | .null => "None"
  | .bool true => "True"
  | .bool false => "False"
  | .num n => toString n
  | .str s => pyReprString s
  | .arr xs => "[" ++ String.intercalate ", " (pyReprList xs) ++ "]"
  | .obj fs => "\x7b" ++ String.intercalate ", " (pyReprFields fs) ++ "\x7d"

/-- Repr of each element of a list, in order. -/
def pyReprList : List Json → List String
  | [] => []
  | v :: vs => pyRepr v :: pyReprList vs

/-- Repr of each `key: value` entry of a dict, in order. -/
def pyReprFields : List (String × Json) → List String
  | [] => []
  | f :: fs => (pyReprString f.1 ++ ": " ++ pyRepr f.2) :: pyReprFields fs

end

/-- Model of Python `str` on a JSON-derived value, as used by f-string
interpolation: a `str` is itself, everything else is its repr. -/
def pyStr : Json → String
  | .str s => s
  | v => pyRepr v

/-- Outcome of the GitHub tier of `load_telos_context` (the code inside
`async with httpx.AsyncClient()`): either an HTTP response arrived, with
`decoded` the result of the `response.json()` → `data["content"]` →
base64 → UTF-8 pipeline (`none` when that pipeline raises), or the
request itself raised a network error. -/
inductive RemoteOutcome where
  | response (statusCode : Nat) (decoded : Option String)
  | netError
  deriving Repr, DecidableEq

/-- Outcome of `open("/app/context/telos.md", "r")` followed by `read()`:
the contents, `FileNotFoundError`, or any other exception
(e.g. `PermissionError`, `UnicodeDecodeError`). -/
inductive FileOutcome where
  | content (s : String)
  | notFound
  | otherError
  deriving Repr, DecidableEq

/-- One request's view of the outside world: the two environment
variables read by `load_telos_context`, the outcome of the remote fetch
were it attempted, and the outcome of the local-file read were it
attempted.  `telosRepo` only shapes the request URL and is otherwise
unobservable. -/
structure World where
  githubToken : Option String
  telosRepo : Option String
  remote : RemoteOutcome
  localFile : FileOutcome
  deriving Repr, DecidableEq

/-- Constant returned when no context is available (last fallback tier). -/
def telosPlaceholder : String :=
  "# TELOS Context\nNo personal context loaded. Please set up your TELOS file."

/-- Embeds the local-file tier of `load_telos_context` (lines 43-48):
`try: open(...).read()` with `except FileNotFoundError:` returning the
placeholder.  Any other exception is not caught and propagates. -/
def loadLocalFallback : FileOutcome → Except Unit String
  | .content s => .ok s
  | .notFound => .ok telosPlaceholder
  | .otherError => .error ()

/-- Embeds `load_telos_context` (lines 22-48).  With a token present the
GitHub tier returns the decoded content on a 200 response whose decode
pipeline succeeds; a non-200 response falls out of the `try` block
normally, and a network error or decode exception is caught by
`except Exception` — all three continue to the local-file tier, as does
the missing-token case. -/
def load_telos_context (w : World) : Except Unit String :=
  match w.githubToken with
  | some _ =>
    match w.remote with
    | .response 200 (some content) => .ok content
    | .response 200 none => loadLocalFallback w.localFile
    | .response _ _ => loadLocalFallback w.localFile
    | .netError => loadLocalFallback w.localFile
  | none => loadLocalFallback w.localFile

/-- Embeds `request.params`, a Python dict with string keys: `get`
returns the first (unique) binding, or `none` when the key is absent. -/
def dictGet (d : List (String × Json)) (k : String) : Option Json :=
  (d.find? (fun p => p.1 == k)).map (fun p => p.2)

/-- Embeds `x.get(key, default)` on an arbitrary JSON-derived value `x`:
on a dict it returns the binding or the default, on anything else Python
raises `AttributeError` (modelled as `Except.error ()`). -/
def pyDictGet (v : Json) (k : String) (dflt : Json) : Except Unit Json :=
  match v with
  | .obj fs => .ok ((dictGet fs k).getD dflt)
  | _ => .error ()

/-- Embeds the `MCPRequest` pydantic model: a required `method` string
and a `params` dict defaulting to empty. -/
structure MCPRequest where
  method : String
  params : List (String × Json) := []
  deriving Repr, DecidableEq

/-- Embeds the `MCPResponse` pydantic model: `result` and `error` both
default to `None`. -/
structure MCPResponse where
  result : Option Json := none
  error : Option Json := none
  deriving Repr, DecidableEq

/-- Static result of the `tools/list` branch (lines 57-85), transcribed
field by field from the source. -/
def toolsListResult : Json :=
  .obj [("tools", .arr [
    .obj [
      ("name", .str "load_telos_context"),
      ("description", .str "Load personal TELOS context for decision filtering"),
      ("inputSchema", .obj [
        ("type", .str "object"),
        ("properties", .obj [
          ("request", .obj [
            ("type", .str "string"),
            ("description", .str "The request to filter through personal context")])])])],
    .obj [
      ("name", .str "apply_telos_filter"),
      ("description", .str "Apply TELOS context to evaluate alignment with personal mission"),
      ("inputSchema", .obj [
        ("type", .str "object"),
        ("properties", .obj [
          ("content", .obj [
            ("type", .str "string"),
            ("description", .str "Content to evaluate")]),
          ("decision_type", .obj [
            ("type", .str "string"),
            ("description", .str "Type of decision")])])])]])]

/-- Embeds the error payload of the unknown-method branch (line 113). -/
def methodNotFoundError (m : String) : Json :=
  .obj [("code", .num (-32601)), ("message", .str ("Method " ++ m ++ " not found"))]

/-- Literal text of the `apply_telos_filter` f-string before the first
interpolation, with the exact whitespace of the triple-quoted literal. -/
def templateHead : String :=
  "\n            TELOS-Filtered Analysis:\n            \n            Personal Context Applied: "

/-- Literal text of the f-string between the two interpolations. -/
def templateMid : String :=
  "...\n            \n            Content Analysis: "

/-- Literal text of the f-string after the second interpolation. -/
def templateTail : String :=
  "\n            \n            Alignment Assessment: [This would contain AI-generated alignment analysis]\n            "

/-- Embeds the f-string template of `apply_telos_filter` (lines 100-108):
the first 200 characters of the context and the Python string form of the
caller-supplied content are interpolated between the literal pieces. -/
def telosTemplate (context : String) (content : Json) : String :=
  templateHead ++ context.take 200 ++ templateMid ++ pyStr content ++ templateTail

/-- Embeds `mcp_endpoint` (lines 54-113).  The value `Except.ok none`
models the fall-through of `tools/call` with an unrecognised tool name:
the Python function returns `None` rather than an `MCPResponse`. -/
def mcp_endpoint (w : World) (request : MCPRequest) : Except Unit (Option MCPResponse) :=
  if request.method = "tools/list" then
    .ok (some { result := some toolsListResult })
  else if request.method = "tools/call" then
    let tool_name := dictGet request.params "name"
    let arguments := (dictGet request.params "arguments").getD (.obj [])
    if tool_name = some (.str "load_telos_context") then
      match load_telos_context w with
      | .ok context => .ok (some { result := some (.obj [("content", .str context)]) })
      | .error e => .error e
    else if tool_name = some (.str "apply_telos_filter") then
      match load_telos_context w with
      | .ok context =>
        match pyDictGet arguments "content" (.str "") with
        | .ok content =>
          .ok (some { result := some (.obj [("filtered_content", .str (telosTemplate context content))]) })
        | .error e => .error e
      | .error e => .error e
    else
      .ok none
  else
    .ok (some { error := some (methodNotFoundError request.method) })


/-- Success projection of the remote tier: the content the GitHub tier
would return, or `none` when the fetch fails (network error, non-200
status, or decode failure). -/
def remoteSuccess : RemoteOutcome → Option String
  | .response 200 (some c) => some c
  | _ => none

/-- Descriptor list of a `tools` result object. -/
def toolDescriptors : Json → List Json
  | .obj [("tools", .arr ts)] => ts
  | _ => []

/-- Name field of one tool descriptor. -/
def descriptorName : Json → Option Json
  | .obj fs => dictGet fs "name"
  | _ => none

/-- Claim C1, counterexample: with no credential and a local file whose
read fails with an exception other than `FileNotFoundError` (for example
`PermissionError`), `load_telos_context` propagates the exception to its
caller instead of returning a string: the `except FileNotFoundError`
clause on lines 46-48 does not catch it. -/
theorem load_telos_context_raises_on_unreadable_file :
    load_telos_context ⟨none, none, RemoteOutcome.netError, FileOutcome.otherError⟩ = Except.error () ∧
    ¬ ∃ s, load_telos_context ⟨none, none, RemoteOutcome.netError, FileOutcome.otherError⟩ = Except.ok s :=
  ⟨rfl, fun ⟨_, h⟩ => Except.noConfusion h⟩

/-- Claim C1, amended: `load_telos_context` returns a string for every
environment configuration and every remote-fetch outcome, provided the
local-file read does not fail with an exception other than
`FileNotFoundError` (the only exception the local tier catches). -/
theorem load_telos_context_total (w : World)
    (h : w.localFile ≠ FileOutcome.otherError) :
    ∃ s, load_telos_context w = Except.ok s := by
  have hl : ∃ s, loadLocalFallback w.localFile = Except.ok s := by
    cases hf : w.localFile with
    | content s => exact ⟨s, rfl⟩
    | notFound => exact ⟨telosPlaceholder, rfl⟩
    | otherError => exact absurd hf h
  unfold load_telos_context
  split
  · split
    · exact ⟨_, rfl⟩
    · exact hl
    · exact hl
    · exact hl
  · exact hl

/-- Claim C1, witness for the amended theorem at a concrete world. -/
theorem load_telos_context_total_witness :
    ∃ s, load_telos_context ⟨none, none, RemoteOutcome.netError, FileOutcome.notFound⟩ = Except.ok s :=
  load_telos_context_total ⟨none, none, RemoteOutcome.netError, FileOutcome.notFound⟩ (by decide)

/-- Claim C5: with no credential in the environment and the local
fallback file absent, `load_telos_context` returns exactly the constant
placeholder string, and the `load_telos_context` tool wraps it as
`content`. -/
theorem load_telos_context_placeholder (w : World)
    (htok : w.githubToken = none) (hfile : w.localFile = FileOutcome.notFound) :
    load_telos_context w = Except.ok "# TELOS Context\nNo personal context loaded. Please set up your TELOS file." ∧
    mcp_endpoint w ⟨"tools/call", [("name", Json.str "load_telos_context")]⟩ = Except.ok (some { result := some (Json.obj [("content", Json.str "# TELOS Context\nNo personal context loaded. Please set up your TELOS file.")]), error := none }) := by
  have hload : load_telos_context w = Except.ok "# TELOS Context\nNo personal context loaded. Please set up your TELOS file." := by
    simp [load_telos_context, htok, hfile, loadLocalFallback, telosPlaceholder]
  exact ⟨hload, by simp [mcp_endpoint, dictGet, hload]⟩

/-- Claim C5, witness at a concrete world. -/
theorem load_telos_context_placeholder_witness :
    load_telos_context ⟨none, some "your-username/personal-context", RemoteOutcome.netError, FileOutcome.notFound⟩ = Except.ok "# TELOS Context\nNo personal context loaded. Please set up your TELOS file." ∧
    mcp_endpoint ⟨none, some "your-username/personal-context", RemoteOutcome.netError, FileOutcome.notFound⟩ ⟨"tools/call", [("name", Json.str "load_telos_context")]⟩ = Except.ok (some { result := some (Json.obj [("content", Json.str "# TELOS Context\nNo personal context loaded. Please set up your TELOS file.")]), error := none }) :=
  load_telos_context_placeholder _ rfl rfl

/-- Claim C7: whenever the remote tier fails (missing credential, network
error, non-200 status, or decode failure) and the local file exists,
`load_telos_context` does not raise and returns the file contents. -/
theorem load_telos_context_falls_back_to_file (w : World) (s : String)
    (hrem : w.githubToken = none ∨ remoteSuccess w.remote = none)
    (hfile : w.localFile = FileOutcome.content s) :
    load_telos_context w = Except.ok s := by
  have hl : loadLocalFallback w.localFile = Except.ok s := by rw [hfile]; rfl
  unfold load_telos_context
  split
  · have hnone : remoteSuccess w.remote = none := by
      rcases hrem with h | h
      · next t hg => rw [hg] at h; cases h
      · exact h
    split
    · next c heq => rw [heq] at hnone; simp [remoteSuccess] at hnone
    · exact hl
    · exact hl
    · exact hl
  · exact hl

/-- Claim C7, witness: a non-200 status with the local file present. -/
theorem load_telos_context_falls_back_to_file_witness :
    load_telos_context ⟨some "tok", some "owner/repo", RemoteOutcome.response 404 none, FileOutcome.content "local telos"⟩ = Except.ok "local telos" :=
  load_telos_context_falls_back_to_file _ _ (Or.inr (by decide)) rfl

/-- Claim C4: any request whose method is neither `tools/list` nor
`tools/call` gets a response with null `result` and error
`code -32601, message "Method M not found"`, a message that contains the
method string M as a substring. -/
theorem unknown_method_not_found (w : World) (req : MCPRequest)
    (h1 : req.method ≠ "tools/list") (h2 : req.method ≠ "tools/call") :
    mcp_endpoint w req = Except.ok (some { result := none, error := some (Json.obj [("code", Json.num (-32601)), ("message", Json.str ("Method " ++ req.method ++ " not found"))]) }) ∧
    req.method.data <:+: ("Method " ++ req.method ++ " not found").data := by
  constructor
  · simp [mcp_endpoint, h1, h2, methodNotFoundError]
  · exact ⟨"Method ".data, " not found".data, by simp [String.data_append]⟩

/-- Claim C4, witness at the spec's scenario method `unknown/x`. -/
theorem unknown_method_not_found_witness :
    mcp_endpoint ⟨none, none, RemoteOutcome.netError, FileOutcome.notFound⟩ ⟨"unknown/x", []⟩ = Except.ok (some { result := none, error := some (Json.obj [("code", Json.num (-32601)), ("message", Json.str "Method unknown/x not found")]) }) ∧
    "unknown/x".data <:+: ("Method " ++ "unknown/x" ++ " not found").data :=
  unknown_method_not_found _ _ (by decide) (by decide)

/-- Claim C8: every `tools/list` request, whatever its params and
whatever the environment, network and filesystem hold, gets the same
static result with null error, and that result lists exactly the two
descriptors named `load_telos_context` and `apply_telos_filter`. -/
theorem tools_list_static (w : World) (req : MCPRequest) (h : req.method = "tools/list") :
    mcp_endpoint w req = Except.ok (some { result := some toolsListResult, error := none }) ∧
    (toolDescriptors toolsListResult).map descriptorName = [some (Json.str "load_telos_context"), some (Json.str "apply_telos_filter")] :=
  ⟨by simp [mcp_endpoint, h], by rfl⟩

/-- Claim C8, witness at a concrete world and request. -/
theorem tools_list_static_witness :
    mcp_endpoint ⟨some "tok", none, RemoteOutcome.netError, FileOutcome.otherError⟩ ⟨"tools/list", [("extra", Json.null)]⟩ = Except.ok (some { result := some toolsListResult, error := none }) ∧
    (toolDescriptors toolsListResult).map descriptorName = [some (Json.str "load_telos_context"), some (Json.str "apply_telos_filter")] :=
  tools_list_static _ _ rfl

/-- Claim C2, counterexample: a `tools/call` request with an unknown
tool name makes the handler return Python `None` instead of an
`MCPResponse`, so the claim that every response has exactly one of
`result` and `error` populated fails: this response has neither. -/
theorem envelope_exactly_one_fails :
    ¬ ∀ (w : World) (req : MCPRequest) (resp : Option MCPResponse),
        mcp_endpoint w req = Except.ok resp →
        ∃ r, resp = some r ∧ ((r.result ≠ none ∧ r.error = none) ∨ (r.result = none ∧ r.error ≠ none)) := by
  intro h
  obtain ⟨r, hr, _⟩ := h ⟨none, none, RemoteOutcome.netError, FileOutcome.notFound⟩ ⟨"tools/call", [("name", Json.str "bogus")]⟩ none rfl
  exact Option.noConfusion hr

/-- Claim C2, amended: whenever the dispatcher does produce a response
envelope, exactly one of `result` and `error` is populated; the sole
exception is `tools/call` with an unrecognised tool name, where no
envelope is produced at all (the handler returns `None`). -/
theorem envelope_exactly_one_when_present (w : World) (req : MCPRequest) (resp : MCPResponse)
    (h : mcp_endpoint w req = Except.ok (some resp)) :
    (resp.result ≠ none ∧ resp.error = none) ∨ (resp.result = none ∧ resp.error ≠ none) := by
  obtain ⟨res, err⟩ := resp
  replace h := h.symm
  simp only [mcp_endpoint] at h
  repeat' split at h
  all_goals simp_all

/-- Claim C2, witness for the amended theorem on a `tools/list` request. -/
theorem envelope_exactly_one_when_present_witness :
    (({ result := some toolsListResult, error := none } : MCPResponse).result ≠ none ∧ ({ result := some toolsListResult, error := none } : MCPResponse).error = none) ∨
    (({ result := some toolsListResult, error := none } : MCPResponse).result = none ∧ ({ result := some toolsListResult, error := none } : MCPResponse).error ≠ none) :=
  envelope_exactly_one_when_present ⟨none, none, RemoteOutcome.netError, FileOutcome.notFound⟩ ⟨"tools/list", []⟩ _ rfl

/-- Claim C3: a `tools/call` request whose `name` parameter is neither
`load_telos_context` nor `apply_telos_filter` falls through both tool
branches: the handler returns Python `None` — an empty envelope with
neither `result` nor `error` populated. -/
theorem unknown_tool_empty_envelope (w : World) (req : MCPRequest)
    (hm : req.method = "tools/call")
    (h1 : dictGet req.params "name" ≠ some (Json.str "load_telos_context"))
    (h2 : dictGet req.params "name" ≠ some (Json.str "apply_telos_filter")) :
    mcp_endpoint w req = Except.ok none := by
  simp [mcp_endpoint, hm, h1, h2]

/-- Claim C3, witness with an unknown tool name. -/
theorem unknown_tool_empty_envelope_witness :
    mcp_endpoint ⟨none, none, RemoteOutcome.netError, FileOutcome.notFound⟩ ⟨"tools/call", [("name", Json.str "bogus")]⟩ = Except.ok none :=
  unknown_tool_empty_envelope _ _ rfl (by decide) (by decide)

/-- Claim C9: a `tools/call` request whose params have no `name` key at
all raises no exception: `params.get("name")` reads as `None`, both tool
comparisons fail, and the dispatcher behaves exactly as it does for an
unknown tool name. -/
theorem missing_tool_name_reads_as_none (w : World) (ps : List (String × Json))
    (h : dictGet ps "name" = none) :
    mcp_endpoint w ⟨"tools/call", ps⟩ = Except.ok none ∧
    mcp_endpoint w ⟨"tools/call", ps⟩ = mcp_endpoint w ⟨"tools/call", [("name", Json.str "some_unknown_tool")]⟩ := by
  have h1 : mcp_endpoint w ⟨"tools/call", ps⟩ = Except.ok none := by
    simp [mcp_endpoint, h]
  exact ⟨h1, by rw [h1]; rfl⟩

/-- Claim C9, witness with the default empty params. -/
theorem missing_tool_name_reads_as_none_witness :
    mcp_endpoint ⟨none, none, RemoteOutcome.netError, FileOutcome.notFound⟩ ⟨"tools/call", []⟩ = Except.ok none ∧
    mcp_endpoint ⟨none, none, RemoteOutcome.netError, FileOutcome.notFound⟩ ⟨"tools/call", []⟩ = mcp_endpoint ⟨none, none, RemoteOutcome.netError, FileOutcome.notFound⟩ ⟨"tools/call", [("name", Json.str "some_unknown_tool")]⟩ :=
  missing_tool_name_reads_as_none _ _ rfl

/-- Claim C6: for every string `content` argument (and for the absent
case, which defaults to the empty string) the `apply_telos_filter`
result embeds the template; that template contains the caller-supplied
content verbatim as a substring and the first 200 characters of the
loaded context as a substring. -/
theorem apply_telos_filter_embeds_content (w : World) (ctx content : String)
    (hload : load_telos_context w = Except.ok ctx) :
    mcp_endpoint w ⟨"tools/call", [("name", Json.str "apply_telos_filter"), ("arguments", Json.obj [("content", Json.str content)])]⟩ = Except.ok (some { result := some (Json.obj [("filtered_content", Json.str (telosTemplate ctx (Json.str content)))]), error := none }) ∧
    mcp_endpoint w ⟨"tools/call", [("name", Json.str "apply_telos_filter")]⟩ = Except.ok (some { result := some (Json.obj [("filtered_content", Json.str (telosTemplate ctx (Json.str "")))]), error := none }) ∧
    content.data <:+: (telosTemplate ctx (Json.str content)).data ∧
    (ctx.take 200).data <:+: (telosTemplate ctx (Json.str content)).data := by
  refine ⟨?_, ?_, ?_, ?_⟩
  · simp [mcp_endpoint, dictGet, pyDictGet, hload]
  · simp [mcp_endpoint, dictGet, pyDictGet, hload]
  · exact ⟨(templateHead ++ ctx.take 200 ++ templateMid).data, templateTail.data, by simp [telosTemplate, pyStr, String.data_append]⟩
  · exact ⟨templateHead.data, (templateMid ++ content ++ templateTail).data, by simp [telosTemplate, pyStr, String.data_append]⟩

/-- Claim C6, witness at a concrete context and content. -/
theorem apply_telos_filter_embeds_content_witness :
    mcp_endpoint ⟨none, none, RemoteOutcome.netError, FileOutcome.content "MY CONTEXT"⟩ ⟨"tools/call", [("name", Json.str "apply_telos_filter"), ("arguments", Json.obj [("content", Json.str "HELLO")])]⟩ = Except.ok (some { result := some (Json.obj [("filtered_content", Json.str (telosTemplate "MY CONTEXT" (Json.str "HELLO")))]), error := none }) ∧
    mcp_endpoint ⟨none, none, RemoteOutcome.netError, FileOutcome.content "MY CONTEXT"⟩ ⟨"tools/call", [("name", Json.str "apply_telos_filter")]⟩ = Except.ok (some { result := some (Json.obj [("filtered_content", Json.str (telosTemplate "MY CONTEXT" (Json.str "")))]), error := none }) ∧
    "HELLO".data <:+: (telosTemplate "MY CONTEXT" (Json.str "HELLO")).data ∧
    ("MY CONTEXT".take 200).data <:+: (telosTemplate "MY CONTEXT" (Json.str "HELLO")).data :=
  apply_telos_filter_embeds_content _ _ _ rfl

/-- Claim C10: the `apply_telos_filter` tool accepts any JSON value as
`arguments.content` — string or not — without validation or failure: the
value is interpolated through its Python string form (`pyStr`) and the
call returns a `filtered_content` result with null error. -/
theorem apply_telos_filter_accepts_any_json (w : World) (v : Json) (ctx : String)
    (hload : load_telos_context w = Except.ok ctx) :
    mcp_endpoint w ⟨"tools/call", [("name", Json.str "apply_telos_filter"), ("arguments", Json.obj [("content", v)])]⟩ = Except.ok (some { result := some (Json.obj [("filtered_content", Json.str (telosTemplate ctx v))]), error := none }) := by
  simp [mcp_endpoint, dictGet, pyDictGet, hload]

/-- Claim C10, witness with a non-string (object) content value. -/
theorem apply_telos_filter_accepts_any_json_witness :
    mcp_endpoint ⟨none, none, RemoteOutcome.netError, FileOutcome.notFound⟩ ⟨"tools/call", [("name", Json.str "apply_telos_filter"), ("arguments", Json.obj [("content", Json.obj [("k", Json.num 1)])])]⟩ = Except.ok (some { result := some (Json.obj [("filtered_content", Json.str (telosTemplate telosPlaceholder (Json.obj [("k", Json.num 1)])))]), error := none }) :=
  apply_telos_filter_accepts_any_json _ _ _ rfl
